import Mathlib

/-
Verification of the UOL GPA/CGPA calculator core
(src/src/app/gpa-cgpa.service.ts).

The service works on JavaScript numbers.  Finite numbers are modelled
exactly as rationals; the non-finite values Infinity, -Infinity and NaN
are modelled as explicit tags, so that the `Number.isFinite` validation
guards of the source are meaningful.  All arithmetic performed by the
service happens after those guards, on finite values only, and is
modelled exactly over ℚ.
-/

namespace UolGpa

/-- A JavaScript number as it can appear in the calculator's input fields:
either a finite value (modelled exactly as a rational) or one of the
non-finite values `Infinity`, `-Infinity`, `NaN`. -/
inductive JsNum where
  | fin (q : ℚ)
  | posInf
  | negInf
  | nan
deriving DecidableEq

/-- JavaScript `Number.isFinite`. -/
def JsNum.isFinite : JsNum → Bool
  | .fin _ => true
  | _ => false

/-- JavaScript comparison `x > 0` (`NaN > 0` is false, `Infinity > 0` true,
`-Infinity > 0` false). -/
def JsNum.gtZero : JsNum → Bool
  | .fin q => decide (0 < q)
  | .posInf => true
  | _ => false

/-- JavaScript comparison `x >= 0`. -/
def JsNum.geZero : JsNum → Bool
  | .fin q => decide (0 ≤ q)
  | .posInf => true
  | _ => false

/-- JavaScript comparison `x <= 4`. -/
def JsNum.leFour : JsNum → Bool
  | .fin q => decide (q ≤ 4)
  | .negInf => true
  | _ => false

/-- The rational value of a finite JavaScript number.  The service only
reads this after a `Number.isFinite` guard, so the value chosen for the
non-finite tags is never relevant. -/
def JsNum.toRat : JsNum → ℚ
  | .fin q => q
  | _ => 0

/-- The `Course` interface: `name` is an optional display label not used in
computation, `creditHours` a number, `grade` a string (the source casts
`c.grade as UolGrade` and then checks table membership, so arbitrary
strings can reach `calculateGpa`). -/
structure Course where
  name : Option String
  creditHours : JsNum
  grade : String
deriving DecidableEq

/-- The `SemesterSummary` interface. -/
structure SemesterSummary where
  name : String
  gpa : JsNum
  creditHours : JsNum
deriving DecidableEq

/-- Result record of `calculateGpa`. -/
structure GpaResult where
  gpa : ℚ
  totalCreditHours : ℚ
deriving DecidableEq

/-- Result record of `calculateCgpa`; `cgpa = none` models the `null`
sentinel. -/
structure CgpaResult where
  cgpa : Option ℚ
  totalCreditHours : ℚ
deriving DecidableEq

/-- The strict UOL grade points mapping `GRADE_POINTS`.  Indexing a
JavaScript record with an absent key yields `undefined`, modelled as
`none`. -/
def GRADE_POINTS (g : String) : Option ℚ :=
  if g = "A" then some 4.0
  else if g = "A-" then some 3.75
  else if g = "B+" then some 3.5
  else if g = "B" then some 3.0
  else if g = "C+" then some 2.5
  else if g = "C" then some 2.0
  else if g = "D+" then some 1.5
  else if g = "D" then some 1.0
  else if g = "F" then some 0.0
  else none

/-- JavaScript `Math.round` on a finite number: nearest integer, halves
rounded toward positive infinity, i.e. `⌊x + 1/2⌋` (exact over ℚ). -/
def mathRound (x : ℚ) : ℤ := ⌊x + 1 / 2⌋

/-- The service's private rounding helper:
`roundToTwo(value) = Math.round(value * 100) / 100`. -/
def roundToTwo (value : ℚ) : ℚ := (mathRound (value * 100) : ℚ) / 100

/-- The filter predicate of `calculateGpa`:
`Number.isFinite(c.creditHours) && c.creditHours > 0 &&
GRADE_POINTS[c.grade] !== undefined`.  (The leading `c &&` null guard of
the source is modelled in `validCourseE` below, where entries may be
null; an element of `List Course` is never null.) -/
def validCourse (c : Course) : Bool :=
  c.creditHours.isFinite && c.creditHours.gtZero && (GRADE_POINTS c.grade).isSome

/-- `calculateGpa` of the service.  The source's
`!Number.isFinite(totalCreditHours)` and `Number.isFinite(rawGpa)` guards
are vacuous over exact rationals (sums and quotients of finite rationals
are finite), so only the `totalCreditHours <= 0` test remains. -/
def calculateGpa (courses : List Course) : GpaResult :=
  let validCourses := courses.filter validCourse
  let totalCreditHours := validCourses.foldl (fun sum c => sum + c.creditHours.toRat) 0
  if totalCreditHours ≤ 0 then
    { gpa := 0, totalCreditHours := 0 }
  else
    let totalPoints := validCourses.foldl
      (fun sum c => sum + c.creditHours.toRat * (GRADE_POINTS c.grade).getD 0) 0
    let rawGpa := totalPoints / totalCreditHours
    { gpa := roundToTwo rawGpa, totalCreditHours := totalCreditHours }

/-- The filter predicate of `calculateCgpa`:
`Number.isFinite(s.gpa) && s.gpa >= 0 && s.gpa <= 4 &&
Number.isFinite(s.creditHours) && s.creditHours > 0`. -/
def validSemester (s : SemesterSummary) : Bool :=
  s.gpa.isFinite && s.gpa.geZero && s.gpa.leFour &&
    s.creditHours.isFinite && s.creditHours.gtZero

/-- `calculateCgpa` of the service.  As in `calculateGpa`, the
`Number.isFinite` guards on the sum and the quotient are vacuous over ℚ. -/
def calculateCgpa (semesters : List SemesterSummary) : CgpaResult :=
  let validSemesters := semesters.filter validSemester
  if validSemesters.length = 0 then
    { cgpa := none, totalCreditHours := 0 }
  else
    let totalCreditHours := validSemesters.foldl (fun sum s => sum + s.creditHours.toRat) 0
    if totalCreditHours ≤ 0 then
      { cgpa := none, totalCreditHours := 0 }
    else
      let totalWeightedPoints := validSemesters.foldl
        (fun sum s => sum + s.gpa.toRat * s.creditHours.toRat) 0
      { cgpa := some (roundToTwo (totalWeightedPoints / totalCreditHours)),
        totalCreditHours := totalCreditHours }

/-- `getGradeOptions` of the service. -/
def getGradeOptions : List String :=
  ["A", "A-", "B+", "B", "C+", "C", "D+", "D", "F"]

/-- `getAllowedCreditHours` of the service. -/
def getAllowedCreditHours : List ℚ := [1, 2, 3, 4]

/-- Sum of credit hours of a list of courses (the specification's
Σ hᵢ). -/
def sumHours (cs : List Course) : ℚ :=
  (cs.map fun c => c.creditHours.toRat).sum

/-- Sum of `creditHours × grade points` of a list of courses (the
specification's Σ hᵢ·pointsᵢ). -/
def sumPoints (cs : List Course) : ℚ :=
  (cs.map fun c => c.creditHours.toRat * (GRADE_POINTS c.grade).getD 0).sum

/-- Sum of credit hours of a list of terms. -/
def sumTermHours (ts : List SemesterSummary) : ℚ :=
  (ts.map fun s => s.creditHours.toRat).sum

/-- Sum of `gpa × creditHours` of a list of terms (the specification's
`totalWeightedPoints`). -/
def sumWeighted (ts : List SemesterSummary) : ℚ :=
  (ts.map fun s => s.gpa.toRat * s.creditHours.toRat).sum

/-- Rounding to two decimals with halves away from zero, following the
specification's words (for comparison with the source's `roundToTwo`). -/
def roundHalfAwayFromZero (x : ℚ) : ℤ :=
  if x < 0 then -⌊-x + 1 / 2⌋ else ⌊x + 1 / 2⌋

/-- The specification's rounding helper:
round-half-away-from-zero on `value * 100`, divided by 100. -/
def roundToTwoSpec (value : ℚ) : ℚ :=
  (roundHalfAwayFromZero (value * 100) : ℚ) / 100

/-! ### Helper lemmas about the reductions and the validity predicates -/

lemma foldl_hours (cs : List Course) (a : ℚ) :
    cs.foldl (fun sum c => sum + c.creditHours.toRat) a = a + sumHours cs := by
  induction cs generalizing a with
  | nil => simp [sumHours]
  | cons c cs ih => simp [sumHours, ih, add_assoc]

lemma foldl_points (cs : List Course) (a : ℚ) :
    cs.foldl (fun sum c => sum + c.creditHours.toRat * (GRADE_POINTS c.grade).getD 0) a =
      a + sumPoints cs := by
  induction cs generalizing a with
  | nil => simp [sumPoints]
  | cons c cs ih => simp [sumPoints, ih, add_assoc]

lemma foldl_termHours (ts : List SemesterSummary) (a : ℚ) :
    ts.foldl (fun sum s => sum + s.creditHours.toRat) a = a + sumTermHours ts := by
  induction ts generalizing a with
  | nil => simp [sumTermHours]
  | cons t ts ih => simp [sumTermHours, ih, add_assoc]

lemma foldl_weighted (ts : List SemesterSummary) (a : ℚ) :
    ts.foldl (fun sum s => sum + s.gpa.toRat * s.creditHours.toRat) a = a + sumWeighted ts := by
  induction ts generalizing a with
  | nil => simp [sumWeighted]
  | cons t ts ih => simp [sumWeighted, ih, add_assoc]

lemma validCourse_pos {c : Course} (h : validCourse c = true) : 0 < c.creditHours.toRat := by
  cases hch : c.creditHours with
  | fin q => simp_all [validCourse, hch, JsNum.isFinite, JsNum.gtZero, JsNum.toRat]
  | posInf => simp_all [validCourse, hch, JsNum.isFinite]
  | negInf => simp_all [validCourse, hch, JsNum.isFinite]
  | nan => simp_all [validCourse, hch, JsNum.isFinite]

lemma validSemester_hours_pos {s : SemesterSummary} (h : validSemester s = true) :
    0 < s.creditHours.toRat := by
  cases hch : s.creditHours with
  | fin q => simp_all [validSemester, hch, JsNum.isFinite, JsNum.gtZero, JsNum.toRat]
  | posInf => simp_all [validSemester, hch, JsNum.isFinite]
  | negInf => simp_all [validSemester, hch, JsNum.isFinite]
  | nan => simp_all [validSemester, hch, JsNum.isFinite]

lemma validSemester_gpa_mem {s : SemesterSummary} (h : validSemester s = true) :
    0 ≤ s.gpa.toRat ∧ s.gpa.toRat ≤ 4 := by
  cases hg : s.gpa with
  | fin q => simp_all [validSemester, hg, JsNum.isFinite, JsNum.geZero, JsNum.leFour, JsNum.toRat]
  | posInf => simp_all [validSemester, hg, JsNum.isFinite]
  | negInf => simp_all [validSemester, hg, JsNum.isFinite]
  | nan => simp_all [validSemester, hg, JsNum.isFinite]

lemma sumHours_pos {cs : List Course} (hv : ∀ c ∈ cs, validCourse c = true) (hne : cs ≠ []) :
    0 < sumHours cs := by
  apply List.sum_pos
  · intro q hq
    rcases List.mem_map.mp hq with ⟨c, hc, rfl⟩
    exact validCourse_pos (hv c hc)
  · simpa using hne

lemma sumTermHours_pos {ts : List SemesterSummary}
    (hv : ∀ s ∈ ts, validSemester s = true) (hne : ts ≠ []) : 0 < sumTermHours ts := by
  apply List.sum_pos
  · intro q hq
    rcases List.mem_map.mp hq with ⟨s, hs, rfl⟩
    exact validSemester_hours_pos (hv s hs)
  · simpa using hne

lemma gradePoints_nonneg (g : String) : 0 ≤ (GRADE_POINTS g).getD 0 := by
  unfold GRADE_POINTS
  split_ifs <;> norm_num

lemma gradePoints_le_four (g : String) : (GRADE_POINTS g).getD 0 ≤ 4 := by
  unfold GRADE_POINTS
  split_ifs <;> norm_num

lemma sumPoints_nonneg {cs : List Course} (hv : ∀ c ∈ cs, validCourse c = true) :
    0 ≤ sumPoints cs := by
  apply List.sum_nonneg
  intro q hq
  rcases List.mem_map.mp hq with ⟨c, hc, rfl⟩
  exact mul_nonneg (validCourse_pos (hv c hc)).le (gradePoints_nonneg _)

lemma sumPoints_le_four_mul {cs : List Course} (hv : ∀ c ∈ cs, validCourse c = true) :
    sumPoints cs ≤ 4 * sumHours cs := by
  induction cs with
  | nil => simp [sumPoints, sumHours]
  | cons c cs ih =>
    have h1 : 0 < c.creditHours.toRat := validCourse_pos (hv c (List.mem_cons_self c cs))
    have h2 := ih (fun x hx => hv x (List.mem_cons_of_mem c hx))
    have h3 : c.creditHours.toRat * (GRADE_POINTS c.grade).getD 0 ≤ c.creditHours.toRat * 4 :=
      mul_le_mul_of_nonneg_left (gradePoints_le_four _) h1.le
    simp only [sumPoints, sumHours, List.map_cons, List.sum_cons] at h2 h3 ⊢
    linarith

lemma roundToTwo_nonneg {x : ℚ} (h : 0 ≤ x) : 0 ≤ roundToTwo x := by
  unfold roundToTwo mathRound
  apply div_nonneg _ (by norm_num : (0 : ℚ) ≤ 100)
  have h0 : (0 : ℤ) ≤ ⌊x * 100 + 1 / 2⌋ := Int.floor_nonneg.mpr (by linarith)
  exact_mod_cast h0

lemma roundToTwo_le_four {x : ℚ} (h : x ≤ 4) : roundToTwo x ≤ 4 := by
  unfold roundToTwo mathRound
  rw [div_le_iff₀ (by norm_num : (0 : ℚ) < 100)]
  have h1 : ⌊x * 100 + 1 / 2⌋ ≤ ⌊(801 : ℚ) / 2⌋ := Int.floor_mono (by linarith)
  have h2 : ⌊(801 : ℚ) / 2⌋ = 400 := by norm_num
  have h3 : (⌊x * 100 + 1 / 2⌋ : ℚ) ≤ 400 := by exact_mod_cast h1.trans_eq h2
  linarith

/-! ### The claims -/

/-- C6: for every list of courses whose valid subset is empty — including the
empty list — `calculateGpa` returns the numeric value 0 (not the undefined
sentinel) together with `totalCreditHours = 0`. -/
theorem calculateGpa_empty_valid_zero (cs : List Course)
    (h : cs.filter validCourse = []) :
    calculateGpa cs = { gpa := 0, totalCreditHours := 0 } := by
  simp [calculateGpa, h]

/-- Witness for C6: the empty course list. -/
theorem calculateGpa_empty_valid_zero_witness :
    calculateGpa [] = { gpa := 0, totalCreditHours := 0 } :=
  calculateGpa_empty_valid_zero [] rfl

/-- C5: for every list of terms whose valid subset is empty — including the
empty list and a list whose only term has `gpa = 5` — `calculateCgpa` returns
the `null` sentinel and `totalCreditHours = 0`. -/
theorem calculateCgpa_empty_valid_sentinel (ts : List SemesterSummary)
    (h : ts.filter validSemester = []) :
    calculateCgpa ts = { cgpa := none, totalCreditHours := 0 } := by
  simp [calculateCgpa, h]

/-- Witness for C5: the single term with out-of-range `gpa = 5` (the
specification's Scenario 5). -/
theorem calculateCgpa_empty_valid_sentinel_witness :
    calculateCgpa [⟨"S1", .fin 5, .fin 15⟩] = { cgpa := none, totalCreditHours := 0 } :=
  calculateCgpa_empty_valid_sentinel _ (by
    norm_num [List.filter_cons, validSemester, JsNum.isFinite, JsNum.geZero, JsNum.leFour])

/-- C7: the grade table holds exactly the nine documented entries,
`getGradeOptions` lists exactly those nine letters in order, and
`getAllowedCreditHours` is exactly `[1, 2, 3, 4]`. -/
theorem grade_table_exact :
    getGradeOptions = ["A", "A-", "B+", "B", "C+", "C", "D+", "D", "F"] ∧
    getAllowedCreditHours = [1, 2, 3, 4] ∧
    GRADE_POINTS "A" = some 4.0 ∧
    GRADE_POINTS "A-" = some 3.75 ∧
    GRADE_POINTS "B+" = some 3.5 ∧
    GRADE_POINTS "B" = some 3.0 ∧
    GRADE_POINTS "C+" = some 2.5 ∧
    GRADE_POINTS "C" = some 2.0 ∧
    GRADE_POINTS "D+" = some 1.5 ∧
    GRADE_POINTS "D" = some 1.0 ∧
    GRADE_POINTS "F" = some 0.0 ∧
    ∀ g : String, (GRADE_POINTS g).isSome = true ↔ g ∈ getGradeOptions := by
  refine ⟨rfl, rfl, rfl, rfl, rfl, rfl, rfl, rfl, rfl, rfl, rfl, ?_⟩
  intro g
  unfold GRADE_POINTS getGradeOptions
  split_ifs <;> simp_all

/-- C1: for every list of courses in which every course has a finite,
strictly positive `creditHours` and a grade that is a key of the grade table,
`calculateGpa` returns the two-decimal rounding of
`Σ creditHours·points / Σ creditHours` together with
`totalCreditHours = Σ creditHours`. -/
theorem calculateGpa_weighted_avg (cs : List Course)
    (hv : ∀ c ∈ cs, validCourse c = true) :
    calculateGpa cs =
      { gpa := roundToTwo (sumPoints cs / sumHours cs),
        totalCreditHours := sumHours cs } := by
  have hf : cs.filter validCourse = cs := List.filter_eq_self.mpr hv
  by_cases hcs : cs = []
  · subst hcs
    simp [calculateGpa, sumPoints, sumHours, roundToTwo, mathRound]
    norm_num
  · have hpos : 0 < sumHours cs := sumHours_pos hv hcs
    simp only [calculateGpa, hf, foldl_hours, foldl_points, zero_add]
    rw [if_neg (not_le.mpr hpos)]

/-- Witness for C1: the specification's Scenario 1, two 3-credit courses
graded A and B, giving `gpa = 3.5` and `totalCreditHours = 6`. -/
theorem calculateGpa_weighted_avg_witness :
    calculateGpa [⟨none, .fin 3, "A"⟩, ⟨none, .fin 3, "B"⟩] =
      { gpa := 3.5, totalCreditHours := 6 } := by
  have h := calculateGpa_weighted_avg [⟨none, .fin 3, "A"⟩, ⟨none, .fin 3, "B"⟩] (by
    intro c hc
    simp only [List.mem_cons, List.not_mem_nil, or_false] at hc
    rcases hc with rfl | rfl <;>
      simp [validCourse, JsNum.isFinite, JsNum.gtZero, GRADE_POINTS])
  rw [h]
  simp [sumPoints, sumHours, GRADE_POINTS, JsNum.toRat]
  norm_num [roundToTwo, mathRound, Int.floor_eq_iff]

/-- C2: for every nonempty list of terms in which every term has a finite
`gpa` in `[0, 4]` and finite, strictly positive `creditHours`,
`calculateCgpa` returns the two-decimal rounding of
`Σ gpa·creditHours / Σ creditHours` together with
`totalCreditHours = Σ creditHours`. -/
theorem calculateCgpa_weighted_avg (ts : List SemesterSummary) (hne : ts ≠ [])
    (hv : ∀ s ∈ ts, validSemester s = true) :
    calculateCgpa ts =
      { cgpa := some (roundToTwo (sumWeighted ts / sumTermHours ts)),
        totalCreditHours := sumTermHours ts } := by
  have hf : ts.filter validSemester = ts := List.filter_eq_self.mpr hv
  have hpos : 0 < sumTermHours ts := sumTermHours_pos hv hne
  have hlen : ts.length ≠ 0 := by simpa [List.length_eq_zero] using hne
  simp only [calculateCgpa, hf, foldl_termHours, foldl_weighted, zero_add]
  rw [if_neg hlen, if_neg (not_le.mpr hpos)]

/-- Witness for C2: the specification's Scenario 4, terms
`(gpa 3.5, 15 h)` and `(gpa 3.0, 12 h)`, giving `cgpa = 3.28` and
`totalCreditHours = 27`. -/
theorem calculateCgpa_weighted_avg_witness :
    calculateCgpa [⟨"S1", .fin 3.5, .fin 15⟩, ⟨"S2", .fin 3.0, .fin 12⟩] =
      { cgpa := some 3.28, totalCreditHours := 27 } := by
  have h := calculateCgpa_weighted_avg [⟨"S1", .fin 3.5, .fin 15⟩, ⟨"S2", .fin 3.0, .fin 12⟩]
    (by simp) (by
      intro s hs
      simp only [List.mem_cons, List.not_mem_nil, or_false] at hs
      rcases hs with rfl | rfl <;>
        norm_num [validSemester, JsNum.isFinite, JsNum.gtZero, JsNum.geZero, JsNum.leFour])
  rw [h]
  norm_num [sumWeighted, sumTermHours, JsNum.toRat, roundToTwo, mathRound, Int.floor_eq_iff]

/-- C4: inserting a single invalid entry anywhere into the input leaves the
calculator's entire result unchanged, for both calculators: the invalid
entry contributes to neither the numerator nor the denominator. -/
theorem invalid_entry_ignored :
    (∀ (l1 l2 : List Course) (c : Course), validCourse c = false →
        calculateGpa (l1 ++ c :: l2) = calculateGpa (l1 ++ l2)) ∧
    (∀ (l1 l2 : List SemesterSummary) (s : SemesterSummary), validSemester s = false →
        calculateCgpa (l1 ++ s :: l2) = calculateCgpa (l1 ++ l2)) := by
  constructor
  · intro l1 l2 c h
    have hfe : (l1 ++ c :: l2).filter validCourse = (l1 ++ l2).filter validCourse := by
      simp [List.filter_append, List.filter_cons, h]
    simp only [calculateGpa, hfe]
  · intro l1 l2 s h
    have hfe : (l1 ++ s :: l2).filter validSemester = (l1 ++ l2).filter validSemester := by
      simp [List.filter_append, List.filter_cons, h]
    simp only [calculateCgpa, hfe]

/-- Witness for C4: a zero-credit course inserted after a valid course, and
an out-of-range term inserted after a valid term, leave the results
unchanged. -/
theorem invalid_entry_ignored_witness :
    calculateGpa ([⟨none, .fin 3, "A"⟩] ++ ⟨none, .fin 0, "A"⟩ :: []) =
      calculateGpa ([⟨none, .fin 3, "A"⟩] ++ []) ∧
    calculateCgpa ([⟨"S1", .fin 3.5, .fin 15⟩] ++ ⟨"S2", .fin 5, .fin 3⟩ :: []) =
      calculateCgpa ([⟨"S1", .fin 3.5, .fin 15⟩] ++ []) :=
  ⟨invalid_entry_ignored.1 _ _ _ (by
      norm_num [validCourse, JsNum.isFinite, JsNum.gtZero]),
   invalid_entry_ignored.2 _ _ _ (by
      norm_num [validSemester, JsNum.isFinite, JsNum.geZero, JsNum.leFour])⟩

/-- C3 (counterexample): `roundToTwo` does not round halves away from zero:
at `-0.125` (whose double product `-0.125 * 100 = -12.5` is exact) it returns
`-0.12`, while rounding the half away from zero would give `-0.13`. -/
theorem roundToTwo_neg_half_counterexample :
    roundToTwo (-(1 / 8)) = -(3 / 25) ∧
    roundToTwoSpec (-(1 / 8)) = -(13 / 100) ∧
    roundToTwo (-(1 / 8)) ≠ roundToTwoSpec (-(1 / 8)) := by
  norm_num [roundToTwo, roundToTwoSpec, mathRound, roundHalfAwayFromZero, Int.floor_eq_iff]

/-- C3 (amended): `roundToTwo` rounds to exactly two decimal places with
halves rounded toward positive infinity (JavaScript `Math.round` semantics):
its value is `n / 100` for the unique integer `n` with
`x*100 - 1/2 < n ≤ x*100 + 1/2`. -/
theorem roundToTwo_two_decimals_half_up (x : ℚ) :
    ∃ n : ℤ, roundToTwo x = (n : ℚ) / 100 ∧
      x * 100 - 1 / 2 < (n : ℚ) ∧ (n : ℚ) ≤ x * 100 + 1 / 2 := by
  refine ⟨⌊x * 100 + 1 / 2⌋, rfl, ?_, Int.floor_le _⟩
  have h := Int.lt_floor_add_one (x * 100 + 1 / 2)
  linarith

/-- C9: for every list of courses, the returned `gpa` lies in `[0, 4]` and
the returned `totalCreditHours` is nonnegative. -/
theorem calculateGpa_result_range (cs : List Course) :
    0 ≤ (calculateGpa cs).gpa ∧ (calculateGpa cs).gpa ≤ 4 ∧
      0 ≤ (calculateGpa cs).totalCreditHours := by
  have hval : ∀ c ∈ cs.filter validCourse, validCourse c = true :=
    fun c hc => List.of_mem_filter hc
  by_cases hle : sumHours (cs.filter validCourse) ≤ 0
  · simp only [calculateGpa, foldl_hours, foldl_points, zero_add]
    rw [if_pos hle]
    norm_num
  · simp only [calculateGpa, foldl_hours, foldl_points, zero_add]
    rw [if_neg hle]
    push_neg at hle
    refine ⟨?_, ?_, hle.le⟩
    · exact roundToTwo_nonneg (div_nonneg (sumPoints_nonneg hval) hle.le)
    · apply roundToTwo_le_four
      rw [div_le_iff₀ hle]
      exact sumPoints_le_four_mul hval

/-- C10: `calculateCgpa` returns the sentinel exactly when the valid subset
is empty; when the valid subset is nonempty the second sentinel guard is
unreachable and the returned `totalCreditHours` is strictly positive. -/
theorem calculateCgpa_sentinel_iff (ts : List SemesterSummary) :
    ((calculateCgpa ts).cgpa = none ↔ ts.filter validSemester = []) ∧
    (ts.filter validSemester ≠ [] → 0 < (calculateCgpa ts).totalCreditHours) := by
  have hval : ∀ s ∈ ts.filter validSemester, validSemester s = true :=
    fun s hs => List.of_mem_filter hs
  by_cases hnil : ts.filter validSemester = []
  · simp [calculateCgpa, hnil]
  · have hpos : 0 < sumTermHours (ts.filter validSemester) := sumTermHours_pos hval hnil
    have hlen : (ts.filter validSemester).length ≠ 0 := by
      simpa [List.length_eq_zero] using hnil
    simp only [calculateCgpa, foldl_termHours, zero_add]
    rw [if_neg hlen, if_neg (not_le.mpr hpos)]
    constructor
    · simp [hnil]
    · intro _
      exact hpos

/-- Witness for C10: one valid term yields a non-sentinel result with
strictly positive total credit hours. -/
theorem calculateCgpa_sentinel_iff_witness :
    0 < (calculateCgpa [⟨"S1", .fin 3.5, .fin 15⟩]).totalCreditHours :=
  (calculateCgpa_sentinel_iff [⟨"S1", .fin 3.5, .fin 15⟩]).2 (by
    norm_num [List.filter_cons, validSemester, JsNum.isFinite, JsNum.gtZero, JsNum.geZero,
      JsNum.leFour])

/-! ### Exception model for the totality claim

JavaScript raises no exception anywhere in the two calculators; the one
operation that could throw — reading a property of a null entry — is
guarded by the `c &&`/`s &&` truthiness test at the head of each filter
predicate.  To prove this rather than assume it, the calculators are
transliterated once more over inputs whose entries may be null
(`Option`), with every property read routed through `jsGet`, which
raises `Except.error` on null exactly as JavaScript would raise a
`TypeError`. -/

/-- JavaScript property read `o.f` on a possibly-null object. -/
def jsGet {α β : Type} (o : Option α) (f : α → β) : Except String β :=
  match o with
  | some a => Except.ok (f a)
  | none => Except.error "TypeError: cannot read properties of null"

/-- The filter predicate of `calculateGpa` with the `c &&` null guard:
`c && Number.isFinite(c.creditHours) && c.creditHours > 0 && ...`;
`&&` short-circuits, so no property is read when `c` is null. -/
def validCourseE (o : Option Course) : Except String Bool :=
  if o.isSome then do
    let ch ← jsGet o Course.creditHours
    if ch.isFinite && ch.gtZero then do
      let g ← jsGet o Course.grade
      pure (GRADE_POINTS g).isSome
    else
      pure false
  else
    pure false

/-- The filter predicate of `calculateCgpa` with the `s &&` null guard. -/
def validSemesterE (o : Option SemesterSummary) : Except String Bool :=
  if o.isSome then do
    let g ← jsGet o SemesterSummary.gpa
    if g.isFinite && g.geZero && g.leFour then do
      let ch ← jsGet o SemesterSummary.creditHours
      pure (ch.isFinite && ch.gtZero)
    else
      pure false
  else
    pure false

/-- `Array.prototype.filter` with a predicate that may throw. -/
def filterE {α : Type} (p : Option α → Except String Bool) :
    List (Option α) → Except String (List (Option α))
  | [] => Except.ok []
  | x :: xs => do
    let b ← p x
    let rest ← filterE p xs
    pure (if b then x :: rest else rest)

/-- The `reduce` computing `totalCreditHours` in `calculateGpa`, reading
each entry's `creditHours` property. -/
def reduceHoursE : List (Option Course) → ℚ → Except String ℚ
  | [], sum => Except.ok sum
  | o :: os, sum => do
    let ch ← jsGet o Course.creditHours
    reduceHoursE os (sum + ch.toRat)

/-- The `reduce` computing `totalPoints` in `calculateGpa`
(`GRADE_POINTS[c.grade] ?? 0` is `Option.getD`). -/
def reducePointsE : List (Option Course) → ℚ → Except String ℚ
  | [], sum => Except.ok sum
  | o :: os, sum => do
    let g ← jsGet o Course.grade
    let ch ← jsGet o Course.creditHours
    reducePointsE os (sum + ch.toRat * (GRADE_POINTS g).getD 0)

/-- The `reduce` computing `totalCreditHours` in `calculateCgpa`. -/
def reduceTermHoursE : List (Option SemesterSummary) → ℚ → Except String ℚ
  | [], sum => Except.ok sum
  | o :: os, sum => do
    let ch ← jsGet o SemesterSummary.creditHours
    reduceTermHoursE os (sum + ch.toRat)

/-- The `reduce` computing `totalWeightedPoints` in `calculateCgpa`. -/
def reduceWeightedE : List (Option SemesterSummary) → ℚ → Except String ℚ
  | [], sum => Except.ok sum
  | o :: os, sum => do
    let g ← jsGet o SemesterSummary.gpa
    let ch ← jsGet o SemesterSummary.creditHours
    reduceWeightedE os (sum + g.toRat * ch.toRat)

/-- `calculateGpa` over possibly-null entries, with throwing property
reads. -/
def calculateGpaE (courses : List (Option Course)) : Except String GpaResult := do
  let validCourses ← filterE validCourseE courses
  let totalCreditHours ← reduceHoursE validCourses 0
  if totalCreditHours ≤ 0 then
    pure { gpa := 0, totalCreditHours := 0 }
  else do
    let totalPoints ← reducePointsE validCourses 0
    pure { gpa := roundToTwo (totalPoints / totalCreditHours),
           totalCreditHours := totalCreditHours }

/-- `calculateCgpa` over possibly-null entries, with throwing property
reads. -/
def calculateCgpaE (semesters : List (Option SemesterSummary)) :
    Except String CgpaResult := do
  let validSemesters ← filterE validSemesterE semesters
  if validSemesters.length = 0 then
    pure { cgpa := none, totalCreditHours := 0 }
  else do
    let totalCreditHours ← reduceTermHoursE validSemesters 0
    if totalCreditHours ≤ 0 then
      pure { cgpa := none, totalCreditHours := 0 }
    else do
      let totalWeightedPoints ← reduceWeightedE validSemesters 0
      pure { cgpa := some (roundToTwo (totalWeightedPoints / totalCreditHours)),
             totalCreditHours := totalCreditHours }

lemma except_bind_ok {ε α β : Type} (a : α) (f : α → Except ε β) :
    (Except.ok a >>= f) = f a := rfl

lemma except_pure_eq {ε α : Type} (a : α) : (pure a : Except ε α) = Except.ok a := rfl

lemma validCourseE_eq (o : Option Course) :
    validCourseE o = Except.ok (o.elim false validCourse) := by
  cases o with
  | none => rfl
  | some c =>
    simp only [validCourseE, Option.isSome_some, if_true, jsGet, except_bind_ok, Option.elim]
    cases hab : c.creditHours.isFinite && c.creditHours.gtZero <;>
      simp [hab, validCourse, except_pure_eq, Bool.and_assoc]

lemma validSemesterE_eq (o : Option SemesterSummary) :
    validSemesterE o = Except.ok (o.elim false validSemester) := by
  cases o with
  | none => rfl
  | some s =>
    simp only [validSemesterE, Option.isSome_some, if_true, jsGet, except_bind_ok, Option.elim]
    cases hab : s.gpa.isFinite && s.gpa.geZero && s.gpa.leFour <;>
      simp [hab, validSemester, except_pure_eq, Bool.and_assoc]

lemma filterE_courses_eq (l : List (Option Course)) :
    filterE validCourseE l = Except.ok (((l.filterMap id).filter validCourse).map some) := by
  induction l with
  | nil => rfl
  | cons x xs ih =>
    cases x with
    | none =>
      simp only [filterE, validCourseE_eq, Option.elim, except_bind_ok, ih,
        List.filterMap_cons_none, if_false]
      rfl
    | some c =>
      simp only [filterE, validCourseE_eq, Option.elim, except_bind_ok, ih,
        List.filterMap_cons_some, id, List.filter_cons]
      cases hc : validCourse c <;> simp [hc, except_pure_eq]

lemma filterE_semesters_eq (l : List (Option SemesterSummary)) :
    filterE validSemesterE l =
      Except.ok (((l.filterMap id).filter validSemester).map some) := by
  induction l with
  | nil => rfl
  | cons x xs ih =>
    cases x with
    | none =>
      simp only [filterE, validSemesterE_eq, Option.elim, except_bind_ok, ih,
        List.filterMap_cons_none, if_false]
      rfl
    | some s =>
      simp only [filterE, validSemesterE_eq, Option.elim, except_bind_ok, ih,
        List.filterMap_cons_some, id, List.filter_cons]
      cases hs : validSemester s <;> simp [hs, except_pure_eq]

lemma reduceHoursE_eq (cs : List Course) (a : ℚ) :
    reduceHoursE (cs.map some) a =
      Except.ok (cs.foldl (fun sum c => sum + c.creditHours.toRat) a) := by
  induction cs generalizing a with
  | nil => rfl
  | cons c cs ih => simp [reduceHoursE, jsGet, except_bind_ok, ih]

lemma reducePointsE_eq (cs : List Course) (a : ℚ) :
    reducePointsE (cs.map some) a =
      Except.ok
        (cs.foldl (fun sum c => sum + c.creditHours.toRat * (GRADE_POINTS c.grade).getD 0) a) := by
  induction cs generalizing a with
  | nil => rfl
  | cons c cs ih => simp [reducePointsE, jsGet, except_bind_ok, ih]

lemma reduceTermHoursE_eq (ts : List SemesterSummary) (a : ℚ) :
    reduceTermHoursE (ts.map some) a =
      Except.ok (ts.foldl (fun sum s => sum + s.creditHours.toRat) a) := by
  induction ts generalizing a with
  | nil => rfl
  | cons t ts ih => simp [reduceTermHoursE, jsGet, except_bind_ok, ih]

lemma reduceWeightedE_eq (ts : List SemesterSummary) (a : ℚ) :
    reduceWeightedE (ts.map some) a =
      Except.ok (ts.foldl (fun sum s => sum + s.gpa.toRat * s.creditHours.toRat) a) := by
  induction ts generalizing a with
  | nil => rfl
  | cons t ts ih => simp [reduceWeightedE, jsGet, except_bind_ok, ih]

/-- C8: both calculators are total.  Even when the input may contain null
entries and every property read is modelled as throwing on null, both
calculators return `Except.ok` on every input — they never raise — and the
value returned agrees with the pure model on the non-null entries. -/
theorem calculators_never_throw (courses : List (Option Course))
    (semesters : List (Option SemesterSummary)) :
    calculateGpaE courses = Except.ok (calculateGpa (courses.filterMap id)) ∧
    calculateCgpaE semesters = Except.ok (calculateCgpa (semesters.filterMap id)) := by
  constructor
  · simp only [calculateGpaE, filterE_courses_eq, except_bind_ok, reduceHoursE_eq,
      calculateGpa]
    by_cases h : ((courses.filterMap id).filter validCourse).foldl
        (fun sum c => sum + c.creditHours.toRat) 0 ≤ 0
    · simp [h, except_pure_eq]
    · simp [h, reducePointsE_eq, except_bind_ok, except_pure_eq]
  · simp only [calculateCgpaE, filterE_semesters_eq, except_bind_ok, calculateCgpa,
      List.length_map]
    by_cases h0 : ((semesters.filterMap id).filter validSemester).length = 0
    · simp [h0, except_pure_eq]
    · simp only [h0, if_false, reduceTermHoursE_eq, except_bind_ok]
      by_cases h : ((semesters.filterMap id).filter validSemester).foldl
          (fun sum s => sum + s.creditHours.toRat) 0 ≤ 0
      · simp [h, except_pure_eq]
      · simp [h, reduceWeightedE_eq, except_bind_ok, except_pure_eq]

end UolGpa
